import Mathlib

/-!
Verification development for the interactive night-vision image filter
(`main.py`): a grayscale source image is Gaussian-blurred (low-pass), the
blur is subtracted with saturation from the source (high-pass), a linear
contrast/brightness transform (`cv2.convertScaleAbs`) is applied, and the
result is written into one channel of an otherwise-black 3-channel image.
A GUI shell wires four trackbars to the parameters, re-renders on every
trackbar change, and polls for keys: `'s'` saves, any other key exits.

Images are embedded as total pixel functions over natural-number
coordinates with explicit dimensions; 8-bit-ness is the predicate
`Is8Bit`.  Library primitives (`cv2.GaussianBlur`, `cv2.subtract`,
`cv2.convertScaleAbs`) are embedded from their documented OpenCV
semantics; the Gaussian kernel coefficients are transcendental
(exponentials), so the blur is parameterised by the kernel-weight family
`w : kernelSize → sigma → row → col → ℚ`, and theorems that need the
kernel's defining property assume `KernelSumOne` (a normalised kernel sums
to 1), which every `getGaussianKernel` result satisfies.
-/

/-- A single-channel (grayscale) image: dimensions plus a total pixel
function `pix row col`. Mirrors the `numpy` 2-D `uint8` array loaded by
`cv2.imread(path, cv2.IMREAD_GRAYSCALE)`. -/
structure GrayImage where
  rows : ℕ
  cols : ℕ
  pix : ℕ → ℕ → ℕ

/-- A 3-channel image: `pix row col channel`; mirrors the
`np.zeros((h, w, 3), dtype=np.uint8)` array of `process_image`. -/
structure ColorImage where
  rows : ℕ
  cols : ℕ
  pix : ℕ → ℕ → ℕ → ℕ

/-- Every pixel fits in a `uint8` (the dtype of the loaded image). -/
def Is8Bit (img : GrayImage) : Prop :=
  ∀ y x, img.pix y x ≤ 255

/-- The uniform image with every pixel equal to `v`. -/
def uniformImg (r c v : ℕ) : GrayImage :=
  { rows := r, cols := c, pix := fun _ _ => v }

/-- Round-half-up to an integer, the rounding OpenCV applies when storing
a filtered value into a `uint8` destination. -/
def roundQ (q : ℚ) : ℤ :=
  ⌊q + 1/2⌋

/-- OpenCV's default border policy `BORDER_REFLECT_101` (`gfedcb|abcdefgh|gfedcba`),
for offsets smaller than the image extent (always the case for the 3..15
kernels used here on real images). -/
def borderReflect101 (n : ℕ) (p : ℤ) : ℕ :=
  if n ≤ 1 then 0
  else if p < 0 then (-p).toNat
  else if p < (n : ℤ) then p.toNat
  else (2 * ((n : ℤ) - 1) - p).toNat

/-- A 2-D kernel whose weights over the `k × k` window sum to 1 — the
defining normalisation property of `cv2.getGaussianKernel`, which is all
the proofs below need about the Gaussian coefficients. -/
def KernelSumOne (w : ℕ → ℕ → ℚ) (k : ℕ) : Prop :=
  ∑ i in Finset.range k, ∑ j in Finset.range k, w i j = 1

/-- Embedding of `cv2.GaussianBlur(img, (k, k), sigma)` on a `uint8`
image: correlate with the `k × k` kernel `w` anchored at the centre,
reflect-101 at the borders, round to nearest and saturate to `uint8`.
The kernel weights are a parameter (see the module comment). -/
def gaussianBlur (w : ℕ → ℕ → ℚ) (k : ℕ) (img : GrayImage) : GrayImage :=
  { rows := img.rows
    cols := img.cols
    pix := fun y x =>
      min ((roundQ (∑ i in Finset.range k, ∑ j in Finset.range k,
        w i j *
          (img.pix (borderReflect101 img.rows ((y : ℤ) + i - ((k : ℤ) - 1) / 2))
                   (borderReflect101 img.cols ((x : ℤ) + j - ((k : ℤ) - 1) / 2)) : ℚ))).toNat) 255 }

/-- Embedding of `cv2.subtract(a, b)` on `uint8` images: per-pixel
saturating subtraction (truncated subtraction on ℕ). -/
def cvSubtract (a b : GrayImage) : GrayImage :=
  { rows := a.rows
    cols := a.cols
    pix := fun y x => a.pix y x - b.pix y x }

/-- Embedding of `cv2.convertScaleAbs` on one `uint8` pixel:
`saturate_cast<uchar>(|alpha * v + beta|)`. The trackbar-supplied `alpha`
and `beta` are integers, so no fractional rounding occurs. -/
def convertScaleAbs (alpha beta v : ℤ) : ℕ :=
  min (alpha * v + beta).natAbs 255

/-- `cv2.convertScaleAbs` lifted to a whole image. -/
def convertScaleAbsImg (alpha beta : ℤ) (a : GrayImage) : GrayImage :=
  { rows := a.rows
    cols := a.cols
    pix := fun y x => convertScaleAbs alpha beta (a.pix y x) }

/-- `self.kernel_sizes = [3, 5, 7, 9, 11, 13, 15]` (main.py line 29). -/
def kernel_sizes : List ℕ :=
  [3, 5, 7, 9, 11, 13, 15]

/-- `sigma = 0.3 * ((ksize - 1) * 0.5 - 1) + 0.8` (main.py line 43),
computed exactly over ℚ (all the quantities are exactly representable). -/
def sigmaFor (ksize : ℕ) : ℚ :=
  0.3 * (((ksize : ℚ) - 1) * 0.5 - 1) + 0.8

/-- The Python runtime errors the pipeline can raise: `cv2.error` (e.g.
`GaussianBlur` on a `None` source) and `IndexError` (bad list index /
bad channel index). -/
inductive PyErr where
  | cvError
  | indexError
deriving DecidableEq

/-- State of the `ImageProcessor` class: the `imread` result (`none` when
the file was missing or undecodable — `imread` returns `None`) and the
four filter parameters, with their constructor defaults being
`ksize_index = 0`, `alpha = 1`, `beta = 0`, `color_channel = 1`
(main.py lines 26-33). -/
structure ImageProcessor where
  image : Option GrayImage
  ksize_index : ℕ
  alpha : ℕ
  beta : ℕ
  color_channel : ℕ

/-- Embedding of `ImageProcessor.process_image` (main.py lines 35-56),
parameterised by the Gaussian kernel family `w` (kernel size → sigma →
weights): look up the kernel size (IndexError if out of range), blur
(cv2.error if the image is `None`), saturating-subtract, apply
contrast/brightness, and write the result into channel `color_channel`
of a zeroed 3-channel image (IndexError if the channel is not 0..2). -/
def ImageProcessor.process_image (w : ℕ → ℚ → ℕ → ℕ → ℚ) (p : ImageProcessor) :
    Except PyErr ColorImage :=
  match kernel_sizes.get? p.ksize_index with
  | none => .error .indexError
  | some ksize =>
    match p.image with
    | none => .error .cvError
    | some img =>
      let sigma := sigmaFor ksize
      let low_pass := gaussianBlur (w ksize sigma) ksize img
      let high_pass := cvSubtract img low_pass
      let high_pass_contrast := convertScaleAbsImg (p.alpha : ℤ) (p.beta : ℤ) high_pass
      if p.color_channel < 3 then
        .ok { rows := img.rows
              cols := img.cols
              pix := fun y x c =>
                if c = p.color_channel then high_pass_contrast.pix y x else 0 }
      else
        .error .indexError

/-- The four trackbar positions of the window (labels `Kernel Size`,
`Alpha`, `Beta`, `Color Channel`). -/
structure TrackPos where
  kernelSizePos : ℕ
  alphaPos : ℕ
  betaPos : ℕ
  channelPos : ℕ

/-- State of the interactive shell: the global `processor`, whether the
window exists, the trackbar positions, the last frame passed to
`cv2.imshow` (`displayed`), the frame held by `main`'s local variable
`processed_image` (`mainFrame`, set once at startup and saved on `'s'`),
the content last written to `images/processed.jpg` (`savedFile`), and
whether the poll loop is still running. -/
structure ShellState where
  proc : ImageProcessor
  window : Bool
  pos : TrackPos
  displayed : Option ColorImage
  mainFrame : Option ColorImage
  savedFile : Option ColorImage
  running : Bool

/-- Embedding of `on_trackbar_change` (main.py lines 58-70): when the
window is still visible, copy the four trackbar positions into the
processor, re-render and display; a `cv2.error` from the render is
caught and only logged (the parameter assignments have already
happened), so the shell keeps running. -/
def on_trackbar_change (w : ℕ → ℚ → ℕ → ℕ → ℚ) (s : ShellState) : ShellState :=
  if s.window then
    let p : ImageProcessor :=
      { s.proc with
        ksize_index := s.pos.kernelSizePos
        alpha := s.pos.alphaPos
        beta := s.pos.betaPos
        color_channel := s.pos.channelPos }
    match p.process_image w with
    | .ok img => { s with proc := p, displayed := some img }
    | .error _ => { s with proc := p }
  else s

/-- Embedding of `cv2.setTrackbarPos`: update the stored position and
invoke the registered change handler. -/
def setTrackbarPos (w : ℕ → ℚ → ℕ → ℕ → ℚ) (upd : TrackPos → TrackPos)
    (s : ShellState) : ShellState :=
  on_trackbar_change w { s with pos := upd s.pos }

/-- Outcome of the startup portion of `main` (lines 73-95): `crashed`
records whether the unguarded initial render raised an uncaught
exception; `state` is the shell state reached (at the crash point, or
on entry to the poll loop). -/
structure StartupResult where
  crashed : Bool
  state : ShellState

/-- Embedding of `main`'s startup sequence (main.py lines 73-95):
construct the processor (with its constructor defaults), create the
window, create the four trackbars with initial positions 4, 4, 10, 1,
then call `setTrackbarPos` for each with the processor's field value
(firing the change handler). Each of those arguments is read from the
LIVE global `processor` at call time: the line-88 call resets the
kernel-size position to 0 and its callback immediately overwrites the
global processor from the current positions (0, 4, 10, 1), so lines
89-91 read back `alpha = 4`, `beta = 10`, `channel = 1` and leave those
positions unchanged. Finally `main` renders once with the processor's
current state; that frame becomes both the displayed frame and `main`'s
local `processed_image`. If the final render raises, the exception is
uncaught and the process crashes. -/
def startup (w : ℕ → ℚ → ℕ → ℕ → ℚ) (src : Option GrayImage) : StartupResult :=
  let processor : ImageProcessor :=
    { image := src, ksize_index := 0, alpha := 1, beta := 0, color_channel := 1 }
  let s0 : ShellState :=
    { proc := processor
      window := true
      pos := { kernelSizePos := 4, alphaPos := 4, betaPos := 10, channelPos := 1 }
      displayed := none
      mainFrame := none
      savedFile := none
      running := true }
  let s1 := setTrackbarPos w (fun t => { t with kernelSizePos := s0.proc.ksize_index }) s0
  let s2 := setTrackbarPos w (fun t => { t with alphaPos := s1.proc.alpha }) s1
  let s3 := setTrackbarPos w (fun t => { t with betaPos := s2.proc.beta }) s2
  let s4 := setTrackbarPos w (fun t => { t with channelPos := s3.proc.color_channel }) s3
  match s4.proc.process_image w with
  | .ok img =>
    { crashed := false
      state := { s4 with displayed := some img, mainFrame := some img } }
  | .error _ =>
    { crashed := true, state := { s4 with running := false } }

/-- One iteration's worth of input to the poll loop: either a trackbar
was moved while `cv2.waitKey(1)` was pumping events (and the poll then
returned -1), or the poll returned key code `k` (`-1` means no key). -/
inductive Event where
  | track (upd : TrackPos → TrackPos)
  | poll (k : ℤ)

/-- Key code returned by `cv2.waitKey` for `ord('s')`. -/
def sKey : ℤ := 115

/-- One iteration of `main`'s poll loop (main.py lines 98-105): a
trackbar event runs the change handler; key `'s'` writes `main`'s local
`processed_image` to the save path and keeps polling; `-1` (no key) is
a no-op; any other key stops the loop. -/
def loopStep (w : ℕ → ℚ → ℕ → ℕ → ℚ) (s : ShellState) : Event → ShellState
  | .track upd => setTrackbarPos w upd s
  | .poll k =>
    if k = sKey then { s with savedFile := s.mainFrame }
    else if k ≠ -1 then { s with running := false }
    else s

/-- The poll loop run over a finite prefix of events: events are
consumed only while the loop is running (after a break the remaining
events touch nothing — the loop is never re-entered). -/
def runLoop (w : ℕ → ℚ → ℕ → ℕ → ℚ) : ShellState → List Event → ShellState
  | s, [] => s
  | s, e :: es => if s.running then runLoop w (loopStep w s e) es else s

/-- Embedding of `cv2.destroyAllWindows()` (main.py line 107), executed
after the poll loop exits: the display surface is released. -/
def destroyAllWindows (s : ShellState) : ShellState :=
  { s with window := false }

/-- The box kernel family: a concrete normalised kernel (all `k * k`
window weights equal to `1 / k^2`), used to instantiate the
kernel-family parameter in witnesses. -/
def wBox : ℕ → ℚ → ℕ → ℕ → ℚ :=
  fun k _ _ _ => 1 / ((k : ℚ) * k)

/-- A concrete 1×1 all-black source image. -/
def uniform0 : GrayImage := uniformImg 1 1 0

/-- The trackbar gesture used in the save-bug scenario: the user drags
the `Beta` trackbar from its startup position 10 to 50. -/
def betaTo50 : TrackPos → TrackPos :=
  fun t => { t with betaPos := 50 }

/-- Shell state after: start the program on a 1×1 black source (so the
startup frame is rendered with beta = 10), drag the `Beta` trackbar to
50 (which re-renders and re-displays), then press `'s'` (which saves). -/
def c1FinalState : ShellState :=
  runLoop wBox (startup wBox (some uniform0)).state
    [Event.track betaTo50, Event.poll sKey]

lemma roundQ_coe (v : ℕ) : roundQ (v : ℚ) = (v : ℤ) := by
  rw [roundQ, Int.floor_eq_iff]
  constructor
  · push_cast; linarith
  · push_cast; linarith

lemma blur_const (w : ℕ → ℕ → ℚ) (k r c v : ℕ) (hw : KernelSumOne w k)
    (hv : v ≤ 255) (y x : ℕ) :
    (gaussianBlur w k (uniformImg r c v)).pix y x = v := by
  have hsum : (∑ i in Finset.range k, ∑ j in Finset.range k, w i j * (v : ℚ))
      = (v : ℚ) := by
    have h1 : ∀ i ∈ Finset.range k,
        (∑ j in Finset.range k, w i j * (v : ℚ))
          = (∑ j in Finset.range k, w i j) * (v : ℚ) := by
      intro i _
      rw [Finset.sum_mul]
    rw [Finset.sum_congr rfl h1, ← Finset.sum_mul, hw, one_mul]
  simp only [gaussianBlur, uniformImg]
  rw [hsum, roundQ_coe]
  simp
  omega

lemma runLoop_of_not_running (w : ℕ → ℚ → ℕ → ℕ → ℚ) (s : ShellState)
    (es : List Event) (h : s.running = false) : runLoop w s es = s := by
  cases es <;> simp [runLoop, h]

lemma kernel_sizes_get_eq (i : ℕ) (hi : i < 7) :
    kernel_sizes.get? i = some (kernel_sizes.getD i 0) := by
  interval_cases i <;> rfl

lemma process_image_uniform (w : ℕ → ℚ → ℕ → ℕ → ℚ) (r c v i a b ch K : ℕ)
    (hk : kernel_sizes.get? i = some K)
    (hw : KernelSumOne (w K (sigmaFor K)) K)
    (hv : v ≤ 255) (hch : ch < 3) :
    ∃ out, ImageProcessor.process_image w
        { image := some (uniformImg r c v), ksize_index := i, alpha := a,
          beta := b, color_channel := ch } = .ok out ∧
      out.rows = r ∧ out.cols = c ∧
      ∀ y x cc, out.pix y x cc = if cc = ch then min b 255 else 0 := by
  simp only [ImageProcessor.process_image, hk, if_pos hch]
  refine ⟨_, rfl, rfl, rfl, ?_⟩
  intro y x cc
  rcases eq_or_ne cc ch with h | h
  · subst h
    have hbl := blur_const (w K (sigmaFor K)) K r c v hw hv y x
    simp only [if_pos rfl, convertScaleAbsImg, cvSubtract, hbl]
    simp [uniformImg, convertScaleAbs]
  · simp [h]

lemma wBox3_sum : KernelSumOne (wBox 3 (sigmaFor 3)) 3 := by
  simp [KernelSumOne, wBox, Finset.sum_const, Finset.card_range]

/-- C1: pressing `'s'` saves the frame that `main` rendered at startup,
not the last displayed frame. In the code, `cv2.imwrite` writes `main`'s
local variable `processed_image`, which the trackbar callback never
updates (the callback's `processed_image` is its own local), so after
the user drags the `Beta` trackbar from its startup value 10 to 50 and
presses `'s'` on a 1×1 black source, the saved file's green pixel is 10
(the startup frame, rendered with beta = 10) while the displayed
frame's green pixel is 50 — the saved image is the stale startup frame,
contradicting the claim that it equals the most recently rendered
`OutputImage`. -/
theorem c1_save_writes_startup_frame_not_last_displayed :
    (c1FinalState.savedFile.map fun fr => fr.pix 0 0 1) = some 10 ∧
    (c1FinalState.displayed.map fun fr => fr.pix 0 0 1) = some 50 ∧
    c1FinalState.savedFile = c1FinalState.mainFrame ∧
    c1FinalState.savedFile ≠ c1FinalState.displayed := by
  have hsave : c1FinalState.savedFile =
      (ImageProcessor.process_image wBox
        { image := some (uniformImg 1 1 0), ksize_index := 0, alpha := 4,
          beta := 10, color_channel := 1 }).toOption := rfl
  have hdisp : c1FinalState.displayed =
      (ImageProcessor.process_image wBox
        { image := some (uniformImg 1 1 0), ksize_index := 0, alpha := 4,
          beta := 50, color_channel := 1 }).toOption := rfl
  obtain ⟨o0, h0, _, _, hp0⟩ :=
    process_image_uniform wBox 1 1 0 0 4 10 1 3 rfl wBox3_sum (by omega) (by omega)
  obtain ⟨o1, h1, _, _, hp1⟩ :=
    process_image_uniform wBox 1 1 0 0 4 50 1 3 rfl wBox3_sum (by omega) (by omega)
  rw [h0] at hsave
  rw [h1] at hdisp
  simp only [Except.toOption] at hsave hdisp
  have e0 : (c1FinalState.savedFile.map fun fr => fr.pix 0 0 1) = some 10 := by
    rw [hsave]
    simp [hp0]
  have e1 : (c1FinalState.displayed.map fun fr => fr.pix 0 0 1) = some 50 := by
    rw [hdisp]
    simp [hp1]
  refine ⟨e0, e1, rfl, fun h => ?_⟩
  rw [h] at e0
  rw [e1] at e0
  exact absurd (Option.some.inj e0) (by omega)

/-- C2: the first frame `main` renders and displays at startup is NOT
computed from `kernelSizeIndex = 4` (k = 11): the `setTrackbarPos` call
on main.py line 88 resets the kernel-size trackbar to the constructor's
`ksize_index = 0` and its callback overwrites the global processor from
the live positions, so lines 89-91 read back (and keep) `alpha = 4`,
`beta = 10`, `channel = 1`, and the initial render on line 94 is
computed from `ksize_index = 0` (k = 3), `alpha = 4`, `beta = 10`,
`color_channel = 1`, for every kernel family and every successfully
loaded source image — the claimed kernel size index 4 is lost. -/
theorem c2_first_frame_uses_kernel_index_zero
    (w : ℕ → ℚ → ℕ → ℕ → ℚ) (img : GrayImage) :
    (startup w (some img)).crashed = false ∧
    (startup w (some img)).state.proc.ksize_index = 0 ∧
    (startup w (some img)).state.proc.alpha = 4 ∧
    (startup w (some img)).state.proc.beta = 10 ∧
    (startup w (some img)).state.proc.color_channel = 1 ∧
    (∃ fr, (startup w (some img)).state.mainFrame = some fr ∧
      (startup w (some img)).state.displayed = some fr ∧
      ImageProcessor.process_image w
        { image := some img, ksize_index := 0, alpha := 4, beta := 10,
          color_channel := 1 } = .ok fr) := by
  exact ⟨rfl, rfl, rfl, rfl, rfl, ⟨_, rfl, rfl, rfl⟩⟩

/-- C3 (counterexample): the claim that a failed image load prevents the
display window from being created is false — `main` calls
`cv2.namedWindow` before anything inspects the `imread` result, so at
the concrete input `src = none` the window exists when the process
crashes. -/
theorem c3_counterexample_window_still_created :
    (startup wBox none).state.window = true ∧
    (startup wBox none).crashed = true := by
  exact ⟨rfl, rfl⟩

/-- C3 (amended): if the source image fails to load (`imread` returns
`None`), the program does crash before entering the poll loop and never
displays a frame — the guarded trackbar callbacks swallow their render
errors, and the unguarded initial render then raises an uncaught
`cv2.error` — but only after the display window and trackbars have been
created. -/
theorem c3_load_failure_crashes_after_window_created
    (w : ℕ → ℚ → ℕ → ℕ → ℚ) :
    (startup w none).crashed = true ∧
    (startup w none).state.window = true ∧
    (startup w none).state.displayed = none ∧
    (startup w none).state.mainFrame = none ∧
    (startup w none).state.running = false := by
  exact ⟨rfl, rfl, rfl, rfl, rfl⟩

/-- C4 (counterexample): the claim that a uniform gray-128 source gives
the all-zero output for every `beta` is false — at `beta = 10` (with
`ksize_index = 0`, `alpha = 4`, `channel = 1`) the output's green
channel is 10 everywhere, because `cv2.convertScaleAbs` adds `beta`
after the high-pass image collapses to 0. -/
theorem c4_counterexample_beta10_nonzero :
    ∃ out, ImageProcessor.process_image wBox
        { image := some (uniformImg 1 1 128), ksize_index := 0, alpha := 4,
          beta := 10, color_channel := 1 } = .ok out ∧
      out.pix 0 0 1 = 10 ∧ out.pix 0 0 1 ≠ 0 := by
  obtain ⟨out, hout, _, _, hpix⟩ :=
    process_image_uniform wBox 1 1 128 0 4 10 1 3 rfl wBox3_sum (by omega) (by omega)
  exact ⟨out, hout, by rw [hpix]; simp, by rw [hpix]; simp⟩

/-- C4 (amended): for a uniform gray-128 source, every kernel size
index in [0,6], every alpha in [0,10], every beta in [0,255] and every
channel in {0,1,2}, and any normalised blur kernel, the low-pass equals
the source, the high-pass is 0, and the rendered output has the two
non-selected channels zero and the selected channel uniformly equal to
`beta`; the output is the all-zero image exactly when `beta = 0`. -/
theorem c4_uniform_source_channel_equals_beta
    (w : ℕ → ℚ → ℕ → ℕ → ℚ) (r c i a b ch : ℕ)
    (hi : i < 7) ( _ha : a ≤ 10) (hb : b ≤ 255) (hch : ch < 3)
    (hw : KernelSumOne
      (w (kernel_sizes.getD i 0) (sigmaFor (kernel_sizes.getD i 0)))
      (kernel_sizes.getD i 0)) :
    ∃ out, ImageProcessor.process_image w
        { image := some (uniformImg r c 128), ksize_index := i, alpha := a,
          beta := b, color_channel := ch } = .ok out ∧
      (∀ y x cc, cc ≠ ch → out.pix y x cc = 0) ∧
      (∀ y x, out.pix y x ch = b) ∧
      (b = 0 → ∀ y x cc, out.pix y x cc = 0) := by
  obtain ⟨out, hout, _, _, hpix⟩ :=
    process_image_uniform w r c 128 i a b ch (kernel_sizes.getD i 0)
      (kernel_sizes_get_eq i hi) hw (by omega) hch
  refine ⟨out, hout, ?_, ?_, ?_⟩
  · intro y x cc hcc
    rw [hpix]
    simp [hcc]
  · intro y x
    rw [hpix]
    simp [min_eq_left hb]
  · rintro rfl y x cc
    rw [hpix]
    rcases eq_or_ne cc ch with h | h <;> simp [h]

/-- C4 (witness): the amended statement evaluated at the box kernel, a
1×1 gray-128 source, kernel index 0, alpha 4, beta 10, channel 1. -/
theorem c4_witness_uniform128 :
    ∃ out, ImageProcessor.process_image wBox
        { image := some (uniformImg 1 1 128), ksize_index := 0, alpha := 4,
          beta := 10, color_channel := 1 } = .ok out ∧
      (∀ y x cc, cc ≠ 1 → out.pix y x cc = 0) ∧
      (∀ y x, out.pix y x 1 = 10) ∧
      ((10 : ℕ) = 0 → ∀ y x cc, out.pix y x cc = 0) :=
  c4_uniform_source_channel_equals_beta wBox 1 1 0 4 10 1
    (by decide) (by decide) (by decide) (by decide) wBox3_sum

/-- C5: for every high-pass value in [0,255], alpha in [0,10] and beta
in [0,255], the contrast/brightness step `cv2.convertScaleAbs` computes
`clamp(alpha * high + beta, 0, 255)`: it equals the clamp formula,
never exceeds 255 (saturating at the high end), yields 0 when the
affine value is ≤ 0 (low-end saturation), and is never negative — no
wrap-around. -/
theorem c5_convertScaleAbs_clamps (alpha beta v : ℤ)
    (ha0 : 0 ≤ alpha) ( _ha : alpha ≤ 10) (hb0 : 0 ≤ beta) ( _hb : beta ≤ 255)
    (hv0 : 0 ≤ v) ( _hv : v ≤ 255) :
    (convertScaleAbs alpha beta v : ℤ) = min (max (alpha * v + beta) 0) 255 ∧
    convertScaleAbs alpha beta v ≤ 255 ∧
    (255 ≤ alpha * v + beta → convertScaleAbs alpha beta v = 255) ∧
    (alpha * v + beta ≤ 0 → convertScaleAbs alpha beta v = 0) ∧
    0 ≤ (convertScaleAbs alpha beta v : ℤ) := by
  have hav : 0 ≤ alpha * v := mul_nonneg ha0 hv0
  refine ⟨?_, ?_, ?_, ?_, ?_⟩ <;> simp only [convertScaleAbs] <;> omega

/-- C5 (witness): the clamp behaviour evaluated at alpha 10, beta 200,
value 255, where the affine value 2750 saturates to 255. -/
theorem c5_witness_saturation :
    (convertScaleAbs 10 200 255 : ℤ) = min (max (10 * 255 + 200) 0) 255 ∧
    convertScaleAbs 10 200 255 ≤ 255 ∧
    ((255 : ℤ) ≤ 10 * 255 + 200 → convertScaleAbs 10 200 255 = 255) ∧
    ((10 : ℤ) * 255 + 200 ≤ 0 → convertScaleAbs 10 200 255 = 0) ∧
    0 ≤ (convertScaleAbs 10 200 255 : ℤ) :=
  c5_convertScaleAbs_clamps 10 200 255 (by decide) (by decide) (by decide)
    (by decide) (by decide) (by decide)

/-- C6: for every 8-bit source image and every kernel, the high-pass
image `cv2.subtract(source, lowPass)` is the per-pixel saturating
subtraction `clamp(source - lowPass, 0, 255)`, and every high-pass
pixel is ≥ 0 — a positive-only high-pass, never a signed difference. -/
theorem c6_highpass_is_saturating_subtract (w : ℕ → ℕ → ℚ) (k : ℕ)
    (img : GrayImage) (h8 : Is8Bit img) (y x : ℕ) :
    ((cvSubtract img (gaussianBlur w k img)).pix y x : ℤ) =
      min (max ((img.pix y x : ℤ) - ((gaussianBlur w k img).pix y x : ℤ)) 0)
        255 ∧
    0 ≤ ((cvSubtract img (gaussianBlur w k img)).pix y x : ℤ) := by
  have h := h8 y x
  constructor <;> simp only [cvSubtract] <;> omega

/-- C6 (witness): the saturating subtraction evaluated at a 1×1 black
source with the k = 3 box kernel, pixel (0, 0). -/
theorem c6_witness_uniform_source :
    ((cvSubtract uniform0 (gaussianBlur (wBox 3 1) 3 uniform0)).pix 0 0 : ℤ) =
      min (max ((uniform0.pix 0 0 : ℤ)
        - ((gaussianBlur (wBox 3 1) 3 uniform0).pix 0 0 : ℤ)) 0) 255 ∧
    0 ≤ ((cvSubtract uniform0 (gaussianBlur (wBox 3 1) 3 uniform0)).pix 0 0 : ℤ) :=
  c6_highpass_is_saturating_subtract (wBox 3 1) 3 uniform0
    (fun _ _ => Nat.zero_le 255) 0 0

/-- C7: for every kernel size index in [0,6], the Gaussian standard
deviation used for the blur is `sigma = 0.3 * ((k-1)*0.5 - 1) + 0.8`
for `k` drawn from the ordered list [3,5,7,9,11,13,15]; in particular
index 4 gives k = 11 and sigma = 2 exactly. -/
theorem c7_sigma_from_kernel_size (i : ℕ) (hi : i < 7) :
    kernel_sizes = [3, 5, 7, 9, 11, 13, 15] ∧
    sigmaFor (kernel_sizes.getD i 0) =
      0.3 * (((kernel_sizes.getD i 0 : ℚ) - 1) * 0.5 - 1) + 0.8 ∧
    (i = 4 → kernel_sizes.getD i 0 = 11 ∧ sigmaFor (kernel_sizes.getD i 0) = 2) := by
  refine ⟨rfl, rfl, ?_⟩
  rintro rfl
  refine ⟨rfl, ?_⟩
  norm_num [sigmaFor, kernel_sizes]

/-- C7 (witness): the sigma formula evaluated at index 4, where k = 11
and sigma = 2. -/
theorem c7_witness_index4 :
    kernel_sizes = [3, 5, 7, 9, 11, 13, 15] ∧
    sigmaFor (kernel_sizes.getD 4 0) =
      0.3 * (((kernel_sizes.getD 4 0 : ℚ) - 1) * 0.5 - 1) + 0.8 ∧
    (4 = 4 → kernel_sizes.getD 4 0 = 11 ∧ sigmaFor (kernel_sizes.getD 4 0) = 2) :=
  c7_sigma_from_kernel_size 4 (by decide)

/-- C8: for every valid parameter set (kernel index in [0,6], channel in
{0,1,2}) and every source image and kernel family, `process_image`
succeeds and the two channels of the 3-channel output other than
`color_channel` are zero at every pixel. -/
theorem c8_channel_isolation (w : ℕ → ℚ → ℕ → ℕ → ℚ) (img : GrayImage)
    (i a b ch : ℕ) (hi : i < 7) (hch : ch < 3) :
    ∃ out, ImageProcessor.process_image w
        { image := some img, ksize_index := i, alpha := a, beta := b,
          color_channel := ch } = .ok out ∧
      ∀ y x cc, cc ≠ ch → out.pix y x cc = 0 := by
  simp only [ImageProcessor.process_image, kernel_sizes_get_eq i hi, if_pos hch]
  refine ⟨_, rfl, ?_⟩
  intro y x cc hcc
  simp [hcc]

/-- C8 (witness): channel isolation evaluated at the box kernel, the
1×1 black source and the defaulted parameter set (0, 4, 10, 1). -/
theorem c8_witness_green_channel :
    ∃ out, ImageProcessor.process_image wBox
        { image := some uniform0, ksize_index := 0, alpha := 4, beta := 10,
          color_channel := 1 } = .ok out ∧
      ∀ y x cc, cc ≠ 1 → out.pix y x cc = 0 :=
  c8_channel_isolation wBox uniform0 0 4 10 1 (by decide) (by decide)

/-- C9: in the poll loop, a poll returning -1 (no key) leaves the state
and the loop untouched; a poll returning `'s'` writes `main`'s frame to
the save path and keeps the loop running; a poll returning any other
key stops the loop in that iteration, the remaining events are never
consumed (the loop is not re-entered), and `cv2.destroyAllWindows`
afterwards releases the display surface. -/
theorem c9_poll_loop_semantics (w : ℕ → ℚ → ℕ → ℕ → ℚ) (s : ShellState)
    (k : ℤ) (es : List Event)
    (hs : s.running = true) (hk1 : k ≠ sKey) (hk2 : k ≠ -1) :
    loopStep w s (.poll (-1)) = s ∧
    loopStep w s (.poll sKey) = { s with savedFile := s.mainFrame } ∧
    (loopStep w s (.poll sKey)).running = true ∧
    (loopStep w s (.poll k)).running = false ∧
    runLoop w (loopStep w s (.poll k)) es = loopStep w s (.poll k) ∧
    (destroyAllWindows (runLoop w s (Event.poll k :: es))).window = false := by
  have hstop : (loopStep w s (.poll k)).running = false := by
    simp [loopStep, hk1, hk2]
  refine ⟨by simp [loopStep, sKey], by simp [loopStep], by simp [loopStep, hs],
    hstop, runLoop_of_not_running w _ es hstop, ?_⟩
  simp [runLoop, hs, runLoop_of_not_running w _ es hstop, destroyAllWindows]

/-- C9 (witness): the loop behaviour evaluated in the state reached by a
successful startup on the 1×1 black source, with exit key code 113
(`'q'`) and no further pending events. -/
theorem c9_witness_exit_key :
    loopStep wBox (startup wBox (some uniform0)).state (.poll (-1)) =
      (startup wBox (some uniform0)).state ∧
    loopStep wBox (startup wBox (some uniform0)).state (.poll sKey) =
      { (startup wBox (some uniform0)).state with
        savedFile := (startup wBox (some uniform0)).state.mainFrame } ∧
    (loopStep wBox (startup wBox (some uniform0)).state (.poll sKey)).running
      = true ∧
    (loopStep wBox (startup wBox (some uniform0)).state (.poll 113)).running
      = false ∧
    runLoop wBox
        (loopStep wBox (startup wBox (some uniform0)).state (.poll 113)) [] =
      loopStep wBox (startup wBox (some uniform0)).state (.poll 113) ∧
    (destroyAllWindows (runLoop wBox (startup wBox (some uniform0)).state
      (Event.poll 113 :: []))).window = false :=
  c9_poll_loop_semantics wBox (startup wBox (some uniform0)).state 113 []
    rfl (by decide) (by decide)

/-- C10: for every state within the trackbar-enforced ranges
(`ksize_index` in [0,6], `color_channel` in {0,1,2}) and every loaded
source image, the list lookup `kernel_sizes[ksize_index]` succeeds and
the channel write targets a valid channel, so `process_image` returns
normally — it never fails with an out-of-bounds index. -/
theorem c10_process_image_in_bounds (w : ℕ → ℚ → ℕ → ℕ → ℚ)
    (img : GrayImage) (i a b ch : ℕ) (hi : i < 7) (hch : ch < 3) :
    (kernel_sizes.get? i).isSome = true ∧
    ch < 3 ∧
    ∃ out, ImageProcessor.process_image w
        { image := some img, ksize_index := i, alpha := a, beta := b,
          color_channel := ch } = .ok out := by
  refine ⟨by rw [kernel_sizes_get_eq i hi]; rfl, hch, ?_⟩
  simp only [ImageProcessor.process_image, kernel_sizes_get_eq i hi, if_pos hch]
  exact ⟨_, rfl⟩

/-- C10 (witness): in-bounds access evaluated at the box kernel, the
1×1 black source and the extreme valid indices `ksize_index = 6`,
`color_channel = 2`. -/
theorem c10_witness_valid_state :
    (kernel_sizes.get? 6).isSome = true ∧
    (2 : ℕ) < 3 ∧
    ∃ out, ImageProcessor.process_image wBox
        { image := some uniform0, ksize_index := 6, alpha := 10, beta := 255,
          color_channel := 2 } = .ok out :=
  c10_process_image_in_bounds wBox uniform0 6 10 255 2 (by decide) (by decide)
